import Mathlib

/-!
Verification of the fault-tolerant-api core against its specification.

The Go source is shallowly embedded: pure computations become Lean
functions, stateful components become explicit state-passing functions,
wall-clock instants are rationals (seconds or milliseconds are irrelevant,
only differences matter), Go float64 arithmetic is modelled over ℚ, and
the uniform random draw of rand.Float64 is an explicit parameter u.
Database rows become structures and the SQL UPDATE statements become
row-transforming functions; store operations are modelled as succeeding
(their error paths only add logging/abort branches that the verified
claims do not touch).
-/

namespace FaultTolerantApi

/-! ## Backoff strategies (pkg/retry, ExponentialBackoff) -/

/-- Embedding of the Go struct `retry.ExponentialBackoff`. Durations are
rationals (the unit is irrelevant; Go uses nanoseconds). -/
structure ExponentialBackoff where
  initialInterval : ℚ
  maxInterval : ℚ
  multiplier : ℚ
  jitterFactor : ℚ
deriving DecidableEq, Repr

/-- Embedding of `ExponentialBackoff.NextBackoff`. The Go code computes
`backoff := initial * multiplier^(attempt-1)`, then, when the jitter factor
is positive, adds `rand.Float64() * jitterFactor * backoff` (the random
draw is the parameter `u`), and finally clamps the result to
`maxInterval`. Note that the clamp happens after the jitter is added. -/
def nextBackoff (b : ExponentialBackoff) (u : ℚ) (attempt : ℕ) : ℚ :=
  let base := b.initialInterval * b.multiplier ^ (attempt - 1)
  let withJitter := if 0 < b.jitterFactor then base + u * b.jitterFactor * base else base
  if b.maxInterval < withJitter then b.maxInterval else withJitter

/-- Dispatcher defaults from `retry.NewDefaultExponentialBackoff`,
expressed in milliseconds: I = 500 ms, M = 60 s, m = 1.5, j = 0.2. -/
def defaultExponentialBackoff : ExponentialBackoff :=
  { initialInterval := 500, maxInterval := 60000, multiplier := 3/2, jitterFactor := 1/5 }

/-! ## Token bucket (pkg/ratelimit/token_bucket.go) -/

/-- Embedding of the Go struct `ratelimit.TokenBucket`. The mutex
disappears: all operations are mutually exclusive, so the sequential
semantics below is the observable one. `lastRefillTime` is a rational
wall-clock instant. -/
structure TokenBucket where
  tokens : ℚ
  maxTokens : ℚ
  refillRate : ℚ
  lastRefillTime : ℚ
deriving DecidableEq, Repr

/-- Embedding of `TokenBucket.AllowN`, called at instant `now`: refill
lazily by `elapsed * refillRate` clamped to `maxTokens`, then grant and
deduct when at least `n` tokens are available. -/
def TokenBucket.allowN (tb : TokenBucket) (n : ℚ) (now : ℚ) : Bool × TokenBucket :=
  let refilled := min tb.maxTokens (tb.tokens + (now - tb.lastRefillTime) * tb.refillRate)
  if n ≤ refilled then
    (true, { tb with tokens := refilled - n, lastRefillTime := now })
  else
    (false, { tb with tokens := refilled, lastRefillTime := now })

/-- Embedding of `TokenBucket.Allow` (a unit request). -/
def TokenBucket.allow (tb : TokenBucket) (now : ℚ) : Bool × TokenBucket :=
  tb.allowN 1 now

/-- Embedding of `TokenBucket.Reset`: back to full capacity. -/
def TokenBucket.reset (tb : TokenBucket) (now : ℚ) : TokenBucket :=
  { tb with tokens := tb.maxTokens, lastRefillTime := now }

/-- Embedding of `TokenBucket.Available`: the refilled count, computed
without mutating the bucket. -/
def TokenBucket.available (tb : TokenBucket) (now : ℚ) : ℚ :=
  min tb.maxTokens (tb.tokens + (now - tb.lastRefillTime) * tb.refillRate)

/-- A call against the bucket's public interface. -/
inductive TBOp
  | allowN (n : ℚ)
  | reset
  | available
deriving DecidableEq, Repr

/-- One timed call: returns the new bucket and the number of tokens
admitted by this call (n for a granted allowN, 0 otherwise). -/
def tbStep (tb : TokenBucket) (timedOp : ℚ × TBOp) : TokenBucket × ℚ :=
  match timedOp with
  | (now, .allowN n) =>
    let res := tb.allowN n now
    (res.2, if res.1 then n else 0)
  | (now, .reset) => (tb.reset now, 0)
  | (_, .available) => (tb, 0)

/-- Running a timed call sequence; returns the final bucket and the total
number of admitted tokens. -/
def tbRun (tb : TokenBucket) (ops : List (ℚ × TBOp)) : TokenBucket × ℚ :=
  match ops with
  | [] => (tb, 0)
  | op :: rest =>
    let first := tbStep tb op
    let res := tbRun first.1 rest
    (res.1, first.2 + res.2)

/-- Call instants are nondecreasing, starting no earlier than `t`
(wall-clock monotonicity, which Go's monotonic clock guarantees). -/
def tbTimesMono (t : ℚ) : List (ℚ × TBOp) → Bool
  | [] => true
  | (s, _) :: rest => decide (t ≤ s) && tbTimesMono s rest

/-- Every call instant is at most `T` (the end of the observed interval). -/
def tbTimesLe (T : ℚ) (ops : List (ℚ × TBOp)) : Bool :=
  ops.all fun p => decide (p.1 ≤ T)

/-- Every allowN argument in the sequence is nonnegative. -/
def tbArgsNonneg (ops : List (ℚ × TBOp)) : Bool :=
  ops.all fun p =>
    match p.2 with
    | .allowN n => decide (0 ≤ n)
    | _ => true

/-- The sequence contains a Reset call. -/
def tbHasReset (ops : List (ℚ × TBOp)) : Bool :=
  ops.any fun p =>
    match p.2 with
    | .reset => true
    | _ => false

/-- Concrete bucket for the C7 counterexample: full bucket of capacity 1,
zero refill rate. -/
def c7Bucket : TokenBucket :=
  { tokens := 1, maxTokens := 1, refillRate := 0, lastRefillTime := 0 }

/-- Concrete call sequence for the C7 counterexample: admit a unit
request, Reset, admit another unit request, all at instant 0. -/
def c7Ops : List (ℚ × TBOp) :=
  [(0, .allowN 1), (0, .reset), (0, .allowN 1)]

/-! ## Retry engine (pkg/retry: Retry, RetryWithDiscard, isRetryable) -/

/-- Outcome of `retry.Retry`, mirroring its distinct return paths: success,
cancellation observed at the top of an iteration, cancellation observed
during the backoff wait, an error classified non-retryable, or exhaustion
of all attempts (whose payload is the last error; `none` when the loop
body never ran, i.e. MaxAttempts ≤ 0). -/
inductive RetryOutcome
  | ok
  | cancelledEntry
  | cancelledBackoff
  | nonRetryable (e : String)
  | exhausted (last : Option String)
deriving DecidableEq, Repr

/-- Result of a `Retry` run: the outcome together with how many times the
work function was executed. -/
structure RetryResult where
  outcome : RetryOutcome
  attemptsExecuted : ℕ
deriving DecidableEq, Repr

/-- Embedding of `retry.isRetryable`: with an empty retryable list every
error is retryable, otherwise membership decides (Go `errors.Is` becomes
string equality since errors are modelled by their messages). -/
def isRetryable (e : String) (retryableErrors : List String) : Bool :=
  retryableErrors.isEmpty || retryableErrors.contains e

/-- Embedding of `retry.RetryConfig` (the logger and the backoff strategy
do not influence control flow; cancellation during the backoff wait is
modelled by the `waitCancelled` trace below). -/
structure RetryConfig where
  maxAttempts : ℤ
  retryableErrors : List String
deriving DecidableEq, Repr

/-- Loop body of `retry.Retry`. `fn k` is the error (if any) of the k-th
execution of the work function; `topCancelled k` / `waitCancelled k` say
whether the context is observed cancelled at the top of iteration k /
during the backoff wait after iteration k. The first argument counts the
remaining iterations (`remaining = maxAttempts - attempt + 1`), so
`remaining = 1` is exactly Go's `attempt == cfg.MaxAttempts` break. -/
def retryAux (fn : ℕ → Option String) (retryableErrors : List String)
    (topCancelled waitCancelled : ℕ → Bool) : ℕ → ℕ → RetryResult
  | 0, _ => ⟨.exhausted none, 0⟩
  | r + 1, attempt =>
    if topCancelled attempt then ⟨.cancelledEntry, 0⟩
    else
      match fn attempt with
      | none => ⟨.ok, 1⟩
      | some e =>
        if r = 0 then ⟨.exhausted (some e), 1⟩
        else if ¬ isRetryable e retryableErrors then ⟨.nonRetryable e, 1⟩
        else if waitCancelled attempt then ⟨.cancelledBackoff, 1⟩
        else
          let res := retryAux fn retryableErrors topCancelled waitCancelled r (attempt + 1)
          ⟨res.outcome, res.attemptsExecuted + 1⟩

/-- Embedding of `retry.Retry` (note `Int.toNat`: for MaxAttempts ≤ 0 the
loop body never runs and the function falls through to the final
"all attempts failed" return with a nil last error). -/
def Retry (cfg : RetryConfig) (fn : ℕ → Option String)
    (topCancelled waitCancelled : ℕ → Bool) : RetryResult :=
  retryAux fn cfg.retryableErrors topCancelled waitCancelled cfg.maxAttempts.toNat 1

/-- The error string `retry.Retry` returns for each outcome (`none` for a
nil error). `fmt.Errorf` with a nil `%w` argument renders `%!w(<nil>)`. -/
def retryErrorString (maxAttempts : ℤ) : RetryOutcome → Option String
  | .ok => none
  | .cancelledEntry => some "retry cancelled by context: context canceled"
  | .cancelledBackoff => some "retry cancelled by context during backoff: context canceled"
  | .nonRetryable e => some e
  | .exhausted last =>
    some ("all " ++ toString maxAttempts ++ " retry attempts failed, last error: " ++
      (match last with
       | some e => e
       | none => "%!w(<nil>)"))

/-- Embedding of `retry.RetryWithDiscard`: runs `Retry` and invokes the
discard callback exactly when `Retry` returned a non-nil error. The
boolean records whether discard was invoked. -/
def RetryWithDiscard (cfg : RetryConfig) (fn : ℕ → Option String)
    (topCancelled waitCancelled : ℕ → Bool) : RetryResult × Bool :=
  let r := Retry cfg fn topCancelled waitCancelled
  match retryErrorString cfg.maxAttempts r.outcome with
  | some _ => (r, true)
  | none => (r, false)

/-- Concrete configuration for the C4 counterexample: two attempts, only
the error "A" is retryable. -/
def c4Config : RetryConfig := { maxAttempts := 2, retryableErrors := ["A"] }

/-! ## Outbox data model and dispatcher (internal/models, internal/outbox) -/

/-- Embedding of `models.OutboxMessage`. The payload is opaque. -/
structure OutboxMessage where
  id : ℤ
  aggregateType : String
  aggregateID : String
  eventType : String
  payload : String
  createdAt : ℚ
  processedAt : Option ℚ
  processingAttempts : ℤ
  lastError : Option String
  status : String
deriving DecidableEq, Repr

/-- Embedding of `models.DeadLetterMessage`. -/
structure DeadLetterMessage where
  id : ℤ
  originalMessageID : ℤ
  aggregateType : String
  aggregateID : String
  eventType : String
  payload : String
  errorMessage : String
  failureReason : String
  retryCount : ℤ
  lastRetryAt : Option ℚ
  status : String
  createdAt : ℚ
  resolvedAt : Option ℚ
deriving DecidableEq, Repr

/-- Embedding of `models.NewDeadLetterMessage`: a fresh pending DLQ row
built from a failed outbox row (the id 0 is Go's zero value before the
database assigns one on insert). -/
def NewDeadLetterMessage (outboxMsg : OutboxMessage) (errorMsg reason : String)
    (now : ℚ) : DeadLetterMessage :=
  { id := 0
    originalMessageID := outboxMsg.id
    aggregateType := outboxMsg.aggregateType
    aggregateID := outboxMsg.aggregateID
    eventType := outboxMsg.eventType
    payload := outboxMsg.payload
    errorMessage := errorMsg
    failureReason := reason
    retryCount := 0
    lastRetryAt := none
    status := "pending"
    createdAt := now
    resolvedAt := none }

/-- Observable store effects of one `Processor.processMessage` call, in
program order. Store operations are modelled as succeeding (their
error branches only log or abort). -/
inductive Effect
  | markProcessing (id : ℤ)
  | markCompleted (id : ℤ)
  | markFailed (id : ℤ) (errorMessage : String)
  | dlqInsert (m : DeadLetterMessage)
  | handlerInvoke (id : ℤ) (attempt : ℕ)
deriving DecidableEq, Repr

/-- Effect is a DLQ insert. -/
def isDlqInsert : Effect → Bool
  | .dlqInsert _ => true
  | _ => false

/-- Effect is a handler invocation. -/
def isHandlerInvoke : Effect → Bool
  | .handlerInvoke _ _ => true
  | _ => false

/-- Effect is a mark-failed transition. -/
def isMarkFailed : Effect → Bool
  | .markFailed _ _ => true
  | _ => false

/-- Embedding of `Processor.processMessage` (the DLQ-enabled processor of
internal/outbox/processor.go). `handlers` is the registry
(event type → per-attempt handler results); the retry engine is run with
`MaxAttempts = maxRetries` and no retryable-error list, exactly as the
processor configures it. Returns the effect trace and whether an error
was returned to `processBatch`. -/
def processMessage (handlers : String → Option (ℕ → Option String))
    (msg : OutboxMessage) (useDLQ hasDlqRepo : Bool) (maxRetries : ℤ)
    (topCancelled waitCancelled : ℕ → Bool) (now : ℚ) : List Effect × Bool :=
  match handlers msg.eventType with
  | none =>
    let errorMsg := "no handler registered for event type: " ++ msg.eventType
    (Effect.markProcessing msg.id ::
      Effect.markFailed msg.id errorMsg ::
      (if useDLQ && hasDlqRepo then
        [Effect.dlqInsert (NewDeadLetterMessage msg errorMsg "No handler available" now)]
      else []), true)
  | some fn =>
    let r := Retry { maxAttempts := maxRetries, retryableErrors := [] }
      fn topCancelled waitCancelled
    let invokes := (List.range r.attemptsExecuted).map fun i =>
      Effect.handlerInvoke msg.id (i + 1)
    match retryErrorString maxRetries r.outcome with
    | none =>
      (Effect.markProcessing msg.id :: invokes ++ [Effect.markCompleted msg.id], false)
    | some e =>
      let failedErr := "Failed after " ++ toString maxRetries ++ " retries: " ++ e
      (Effect.markProcessing msg.id :: invokes ++
        Effect.markFailed msg.id failedErr ::
        (if useDLQ && hasDlqRepo then
          [Effect.dlqInsert (NewDeadLetterMessage msg failedErr "Max retries exceeded" now)]
        else []), true)

/-- Concrete outbox row used by witnesses. -/
def sampleMessage : OutboxMessage :=
  { id := 7, aggregateType := "order", aggregateID := "o-1",
    eventType := "order_created", payload := "payload", createdAt := 0,
    processedAt := none, processingAttempts := 0, lastError := none,
    status := "pending" }

/-- Concrete outbox row whose event type has no registered handler. -/
def sampleUnknownMessage : OutboxMessage :=
  { sampleMessage with id := 8, eventType := "order_exploded" }

/-- Concrete handler registry used by witnesses: only "order_created" has
a handler, and that handler always fails with "boom". -/
def sampleHandlers : String → Option (ℕ → Option String) :=
  fun eventType =>
    if eventType = "order_created" then some (fun _ => some "boom") else none

/-! ## Store status transitions (internal/repository) -/

/-- An outbox status is terminal. -/
def terminalOutboxStatus (s : String) : Bool :=
  s = "completed" || s = "failed"

/-- A dead-letter status is terminal. -/
def terminalDeadLetterStatus (s : String) : Bool :=
  s = "resolved" || s = "discarded"

/-- Embedding of `OutboxRepository.MarkAsProcessing` as its effect on the
addressed row: the SQL `UPDATE … SET status, processing_attempts =
processing_attempts + 1 WHERE id = $2` carries no status guard, so it
applies to the row whatever its current status. -/
def MarkAsProcessing (r : OutboxMessage) : OutboxMessage :=
  { r with status := "processing", processingAttempts := r.processingAttempts + 1 }

/-- Embedding of `OutboxRepository.MarkAsCompleted` (unconditional by id). -/
def MarkAsCompleted (r : OutboxMessage) (now : ℚ) : OutboxMessage :=
  { r with status := "completed", processedAt := some now }

/-- Embedding of `OutboxRepository.MarkAsFailed` (unconditional by id). -/
def MarkAsFailed (r : OutboxMessage) (errorMessage : String) : OutboxMessage :=
  { r with status := "failed", lastError := some errorMessage }

/-- Embedding of `DeadLetterRepository.MarkAsRetrying` (unconditional by
id): status=retrying, retry_count+1, last_retry_at=now. -/
def MarkAsRetrying (r : DeadLetterMessage) (now : ℚ) : DeadLetterMessage :=
  { r with status := "retrying", retryCount := r.retryCount + 1, lastRetryAt := some now }

/-- Embedding of `DeadLetterRepository.MarkAsResolved` (unconditional by id). -/
def MarkAsResolved (r : DeadLetterMessage) (now : ℚ) : DeadLetterMessage :=
  { r with status := "resolved", resolvedAt := some now }

/-- Embedding of `DeadLetterRepository.MarkAsDiscarded` (unconditional by
id): appends the discard reason to failure_reason. -/
def MarkAsDiscarded (r : DeadLetterMessage) (reason : String) (now : ℚ) : DeadLetterMessage :=
  { r with
    status := "discarded"
    failureReason := r.failureReason ++ " | Discarded: " ++ reason
    resolvedAt := some now }

/-- Embedding of `DeadLetterRepository.ResetToRetry`: the only guarded
store transition — `WHERE id = $2 AND status = 'retrying'` leaves any
non-retrying row unchanged. -/
def ResetToRetry (r : DeadLetterMessage) : DeadLetterMessage :=
  if r.status = "retrying" then { r with status := "pending" } else r

/-! ## DLQ admin endpoints (internal/api/dlq_handlers.go) -/

/-- Embedding of `retryDeadLetterHandler` for a well-formed id: `none`
means the row does not exist (404). Only pending rows may be retried;
anything else gets 400 and is left unchanged. Returns (HTTP status,
row afterwards). -/
def retryDeadLetterHandler (row : Option DeadLetterMessage) (now : ℚ) :
    ℕ × Option DeadLetterMessage :=
  match row with
  | none => (404, none)
  | some r =>
    if r.status ≠ "pending" then (400, some r)
    else (200, some (MarkAsRetrying r now))

/-- Embedding of `discardDeadLetterHandler` for a well-formed id and
body: an empty reason becomes "No reason provided"; the row is discarded
unconditionally, whatever its status. (The handler's not-found branch is
dead: `ExecContext` does not report zero affected rows as an error, so a
missing id also answers 200.) -/
def discardDeadLetterHandler (row : Option DeadLetterMessage) (reason : String)
    (now : ℚ) : ℕ × Option DeadLetterMessage :=
  let finalReason := if reason = "" then "No reason provided" else reason
  match row with
  | none => (200, none)
  | some r => (200, some (MarkAsDiscarded r finalReason now))

/-- Concrete pending DLQ row used by witnesses. -/
def sampleDeadLetter : DeadLetterMessage :=
  { id := 1, originalMessageID := 7, aggregateType := "order",
    aggregateID := "o-1", eventType := "order_created", payload := "payload",
    errorMessage := "boom", failureReason := "Max retries exceeded",
    retryCount := 0, lastRetryAt := none, status := "pending", createdAt := 0,
    resolvedAt := none }

/-- Concrete resolved DLQ row used by the C1 counterexample and witnesses. -/
def c1ResolvedRow : DeadLetterMessage :=
  { sampleDeadLetter with id := 2, status := "resolved", resolvedAt := some 1 }

/-- Concrete completed outbox row used by the C1 counterexample. -/
def c1CompletedRow : OutboxMessage :=
  { sampleMessage with id := 9, status := "completed", processedAt := some 1 }

/-! ## Circuit breaker (pkg/circuitbreaker) -/

/-- The three breaker states (`opened` stands for Go's `StateOpen`;
`open` is a Lean keyword). -/
inductive CBState
  | closed
  | halfOpen
  | opened
deriving DecidableEq, Repr

/-- Embedding of the Go struct `circuitbreaker.CircuitBreaker` under its
sequential semantics (atomics and CAS always succeed when no other
thread interferes). -/
structure CircuitBreaker where
  state : CBState
  failureThreshold : ℤ
  resetTimeout : ℚ
  halfOpenMaxCalls : ℤ
  failureCount : ℤ
  halfOpenCalls : ℤ
  lastStateChange : ℚ
deriving DecidableEq, Repr

/-- Embedding of `CircuitBreaker.Allow` at instant `now`: closed admits;
open promotes itself to half-open once the reset timeout elapsed and then
re-evaluates (the Go code calls `cb.Allow()` recursively after the CAS,
landing in the half-open branch, inlined here); half-open admits while
the incremented call counter is within the cap. -/
def CircuitBreaker.allow (cb : CircuitBreaker) (now : ℚ) : Bool × CircuitBreaker :=
  match cb.state with
  | .closed => (true, cb)
  | .opened =>
    if cb.resetTimeout ≤ now - cb.lastStateChange then
      let cb1 : CircuitBreaker :=
        { cb with state := .halfOpen, lastStateChange := now, halfOpenCalls := 0 }
      let calls : ℤ := cb1.halfOpenCalls + 1
      (decide (calls ≤ cb1.halfOpenMaxCalls), { cb1 with halfOpenCalls := calls })
    else (false, cb)
  | .halfOpen =>
    let calls : ℤ := cb.halfOpenCalls + 1
    (decide (calls ≤ cb.halfOpenMaxCalls), { cb with halfOpenCalls := calls })

/-- Embedding of `CircuitBreaker.Success`. In the half-open state it
closes the circuit and zeroes the failure count. In the closed state it
does nothing: the Go branch `else if state == StateClosed` that would
reset the failure count is nested inside `if state == StateHalfOpen` and
is unreachable. -/
def CircuitBreaker.success (cb : CircuitBreaker) (now : ℚ) : CircuitBreaker :=
  match cb.state with
  | .halfOpen => { cb with state := .closed, lastStateChange := now, failureCount := 0 }
  | _ => cb

/-- Embedding of `CircuitBreaker.Failure`: in the closed state increment
the failure count and open the circuit at the threshold; in the half-open
state reopen; in the open state do nothing. -/
def CircuitBreaker.failure (cb : CircuitBreaker) (now : ℚ) : CircuitBreaker :=
  match cb.state with
  | .closed =>
    let fc := cb.failureCount + 1
    if cb.failureThreshold ≤ fc then
      { cb with failureCount := fc, state := .opened, lastStateChange := now }
    else { cb with failureCount := fc }
  | .halfOpen => { cb with state := .opened, lastStateChange := now }
  | .opened => cb

/-- Closed breaker with an accumulated failure count, used to evaluate
Success() at the C3 failing input (thresholds are the middleware's
configuration: 10 failures, 30 s reset, 5 half-open calls). -/
def c3Breaker : CircuitBreaker :=
  { state := .closed, failureThreshold := 10, resetTimeout := 30,
    halfOpenMaxCalls := 5, failureCount := 5, halfOpenCalls := 0,
    lastStateChange := 0 }

/-- Closed breaker one failure below its threshold, to show that a
success does not interrupt the accumulation. -/
def c3SmallBreaker : CircuitBreaker :=
  { c3Breaker with failureThreshold := 2, failureCount := 1 }

/-! ## Graceful-degradation middleware (pkg/middleware) -/

/-- Embedding of `isEssentialEndpoint` (`strings.HasPrefix` becomes a
character-list prefix test). -/
def isEssentialEndpoint (path : String) : Bool :=
  List.isPrefixOf "/api/v1/health".data path.data ||
    List.isPrefixOf "/api/v1/admin".data path.data

/-- Observable outcome of one request through the middleware: whether the
inner handler ran, the response status, the Retry-After header if set,
and what was reported to the breaker (`some true` = Success, `some false`
= Failure, `none` = neither). -/
structure MiddlewareResult where
  handlerInvoked : Bool
  status : ℕ
  retryAfter : Option ℕ
  reported : Option Bool
deriving DecidableEq, Repr

/-- Embedding of `GracefulDegradation.Middleware` on one request:
`innerStatus` is the status the inner handler would write. For an
essential path the breaker is never consulted; otherwise a denied
`Allow()` yields 503 with Retry-After 30 and the handler is not invoked;
otherwise the handler runs and, for non-essential paths only, status ≥ 500
reports Failure, status < 400 reports Success, and 4xx reports nothing. -/
def gracefulDegradationMiddleware (cb : CircuitBreaker) (now : ℚ) (path : String)
    (innerStatus : ℕ) : MiddlewareResult × CircuitBreaker :=
  if isEssentialEndpoint path then
    ({ handlerInvoked := true, status := innerStatus, retryAfter := none,
       reported := none }, cb)
  else
    let res := cb.allow now
    if res.1 then
      if 500 ≤ innerStatus then
        ({ handlerInvoked := true, status := innerStatus, retryAfter := none,
           reported := some false }, res.2.failure now)
      else if innerStatus < 400 then
        ({ handlerInvoked := true, status := innerStatus, retryAfter := none,
           reported := some true }, res.2.success now)
      else
        ({ handlerInvoked := true, status := innerStatus, retryAfter := none,
           reported := none }, res.2)
    else
      ({ handlerInvoked := false, status := 503, retryAfter := some 30,
         reported := none }, res.2)

/-! ## Theorems -/

/-- C2, counterexample: with the dispatcher's own default parameters
(I = 500 ms, M = 60 s, m = 1.5, j = 0.2), at attempt k = 13 and jitter
draw u = 0, the returned duration is the clamp M = 60000 ms, which is
strictly below the claimed lower bound I·m^(k−1) ≈ 64873 ms.  The claim's
interval `[I·m^(k−1), (1+j)·min(M, I·m^(k−1))]` therefore does not contain
the returned value (indeed it is empty there). -/
theorem C2_backoff_lower_bound_counterexample :
    nextBackoff defaultExponentialBackoff 0 13 = 60000 ∧
    nextBackoff defaultExponentialBackoff 0 13 <
      defaultExponentialBackoff.initialInterval *
        defaultExponentialBackoff.multiplier ^ (13 - 1) := by
  constructor <;> norm_num [nextBackoff, defaultExponentialBackoff]

/-- C2, amended: because the Go code clamps to the max interval only
*after* adding jitter, the correct bounds are
`min(M, I·m^(k−1)) ≤ NextBackoff(k) ≤ (1+j)·min(M, I·m^(k−1))`:
the claimed upper bound holds, but the lower bound must itself be clamped
at M. -/
theorem C2_backoff_bounds (b : ExponentialBackoff) (u : ℚ) (k : ℕ)
    (hI : 0 ≤ b.initialInterval) (hm : 0 ≤ b.multiplier) (hM : 0 ≤ b.maxInterval)
    (hj0 : 0 ≤ b.jitterFactor) (hj1 : b.jitterFactor ≤ 1)
    (hu0 : 0 ≤ u) (hu1 : u ≤ 1) (hk : 1 ≤ k) :
    min b.maxInterval (b.initialInterval * b.multiplier ^ (k - 1)) ≤ nextBackoff b u k ∧
    nextBackoff b u k ≤
      (1 + b.jitterFactor) * min b.maxInterval (b.initialInterval * b.multiplier ^ (k - 1)) := by
  have hbase0 : 0 ≤ b.initialInterval * b.multiplier ^ (k - 1) :=
    mul_nonneg hI (pow_nonneg hm _)
  unfold nextBackoff
  dsimp only
  set base := b.initialInterval * b.multiplier ^ (k - 1) with hbase
  have hjit0 : 0 ≤ u * b.jitterFactor * base := mul_nonneg (mul_nonneg hu0 hj0) hbase0
  have hjit1 : u * b.jitterFactor * base ≤ b.jitterFactor * base := by
    nlinarith [mul_nonneg (sub_nonneg.mpr hu1) (mul_nonneg hj0 hbase0)]
  set wj := if 0 < b.jitterFactor then base + u * b.jitterFactor * base else base with hwj
  have hlo : base ≤ wj := by
    rw [hwj]; split <;> linarith
  have hhi : wj ≤ (1 + b.jitterFactor) * base := by
    rw [hwj]; split <;> nlinarith
  have hmin : (1 + b.jitterFactor) * min b.maxInterval base =
      min ((1 + b.jitterFactor) * b.maxInterval) ((1 + b.jitterFactor) * base) := by
    rcases le_total b.maxInterval base with h | h
    · rw [min_eq_left h, min_eq_left (by nlinarith)]
    · rw [min_eq_right h, min_eq_right (by nlinarith)]
  constructor
  · split
    · exact min_le_left _ _
    · exact le_trans (min_le_right _ _) hlo
  · rw [hmin]
    split
    · rename_i hclamp
      apply le_min
      · nlinarith
      · nlinarith
    · rename_i hclamp
      push_neg at hclamp
      apply le_min
      · nlinarith
      · nlinarith

/-- Witness for C2_backoff_bounds at the dispatcher defaults, attempt 3,
jitter draw 1/2. -/
theorem C2_backoff_bounds_witness :
    min (60000 : ℚ) (500 * (3/2) ^ (3 - 1)) ≤ nextBackoff defaultExponentialBackoff (1/2) 3 ∧
    nextBackoff defaultExponentialBackoff (1/2) 3 ≤
      (1 + 1/5) * min (60000 : ℚ) (500 * (3/2) ^ (3 - 1)) :=
  C2_backoff_bounds defaultExponentialBackoff (1/2) 3
    (by norm_num [defaultExponentialBackoff]) (by norm_num [defaultExponentialBackoff])
    (by norm_num [defaultExponentialBackoff]) (by norm_num [defaultExponentialBackoff])
    (by norm_num [defaultExponentialBackoff]) (by norm_num) (by norm_num) (by norm_num)

/-- Helper: a time chain starting at `s` also starts at any earlier `t`. -/
lemma tbTimesMono_of_le {t s : ℚ} {ops : List (ℚ × TBOp)} (h : t ≤ s)
    (hm : tbTimesMono s ops = true) : tbTimesMono t ops = true := by
  cases ops with
  | nil => rfl
  | cons p rest =>
    obtain ⟨x, o⟩ := p
    simp only [tbTimesMono, Bool.and_eq_true, decide_eq_true_eq] at hm ⊢
    exact ⟨le_trans h hm.1, hm.2⟩

/-- Helper: AllowN keeps the bucket within `[0, max]` and stamps the
refill time, provided the clock moved forward and the request is
nonnegative. -/
lemma allowN_invariant (tb : TokenBucket) (n now : ℚ)
    (h0 : 0 ≤ tb.tokens) (h1 : tb.tokens ≤ tb.maxTokens) (hr : 0 ≤ tb.refillRate)
    (ht : tb.lastRefillTime ≤ now) (hn : 0 ≤ n) :
    0 ≤ (tb.allowN n now).2.tokens ∧ (tb.allowN n now).2.tokens ≤ tb.maxTokens ∧
    (tb.allowN n now).2.maxTokens = tb.maxTokens ∧
    (tb.allowN n now).2.refillRate = tb.refillRate ∧
    (tb.allowN n now).2.lastRefillTime = now := by
  have hmax0 : 0 ≤ tb.maxTokens := le_trans h0 h1
  have helapsed : 0 ≤ (now - tb.lastRefillTime) * tb.refillRate :=
    mul_nonneg (sub_nonneg.mpr ht) hr
  unfold TokenBucket.allowN
  dsimp only
  set refilled := min tb.maxTokens (tb.tokens + (now - tb.lastRefillTime) * tb.refillRate)
    with hrefilled
  have hre0 : 0 ≤ refilled := le_min hmax0 (by linarith)
  have hreM : refilled ≤ tb.maxTokens := min_le_left _ _
  split
  · rename_i hg
    refine ⟨?_, ?_, rfl, rfl, rfl⟩
    · show 0 ≤ refilled - n
      linarith
    · show refilled - n ≤ tb.maxTokens
      linarith
  · refine ⟨?_, ?_, rfl, rfl, rfl⟩
    · show 0 ≤ refilled
      exact hre0
    · show refilled ≤ tb.maxTokens
      exact hreM

/-- Helper: each AllowN call strictly accounts for the tokens it admits:
the potential `tokens + rate*(T - lastRefill)` decreases by at least the
admitted amount. -/
lemma allowN_potential (tb : TokenBucket) (n now T : ℚ) :
    (tb.allowN n now).2.tokens + tb.refillRate * (T - now) +
      (if (tb.allowN n now).1 then n else 0) ≤
    tb.tokens + tb.refillRate * (T - tb.lastRefillTime) := by
  unfold TokenBucket.allowN
  dsimp only
  have hmin : min tb.maxTokens (tb.tokens + (now - tb.lastRefillTime) * tb.refillRate) ≤
      tb.tokens + (now - tb.lastRefillTime) * tb.refillRate := min_le_right _ _
  have expand : tb.tokens + (now - tb.lastRefillTime) * tb.refillRate +
      tb.refillRate * (T - now) = tb.tokens + tb.refillRate * (T - tb.lastRefillTime) := by
    ring
  split <;> simp only [if_pos trivial, Bool.false_eq_true, if_false] <;> linarith

/-- Helper: running any call sequence keeps the token count within
`[0, max]` (the capacity and rate never change). -/
lemma tbRun_invariant : ∀ (ops : List (ℚ × TBOp)) (tb : TokenBucket),
    0 ≤ tb.tokens → tb.tokens ≤ tb.maxTokens → 0 ≤ tb.refillRate →
    tbTimesMono tb.lastRefillTime ops = true → tbArgsNonneg ops = true →
    0 ≤ (tbRun tb ops).1.tokens ∧ (tbRun tb ops).1.tokens ≤ (tbRun tb ops).1.maxTokens
  | [], tb, h0, h1, _, _, _ => ⟨h0, h1⟩
  | (s, o) :: rest, tb, h0, h1, hr, hmono, hargs => by
    have hmax0 : 0 ≤ tb.maxTokens := le_trans h0 h1
    simp only [tbTimesMono, Bool.and_eq_true, decide_eq_true_eq] at hmono
    obtain ⟨hts, hmono2⟩ := hmono
    simp only [tbArgsNonneg, List.all_cons, Bool.and_eq_true] at hargs
    obtain ⟨harg, hargs2⟩ := hargs
    have hargs3 : tbArgsNonneg rest = true := hargs2
    cases o with
    | available =>
      have ih := tbRun_invariant rest tb h0 h1 hr (tbTimesMono_of_le hts hmono2) hargs3
      simpa [tbRun, tbStep] using ih
    | reset =>
      have ih := tbRun_invariant rest (tb.reset s) (by simpa [TokenBucket.reset] using hmax0)
        (by simp [TokenBucket.reset]) (by simpa [TokenBucket.reset] using hr)
        (by simpa [TokenBucket.reset] using hmono2) hargs3
      simpa [tbRun, tbStep] using ih
    | allowN n =>
      have hn : 0 ≤ n := by simpa using harg
      obtain ⟨k0, k1, kmax, krate, klast⟩ := allowN_invariant tb n s h0 h1 hr hts hn
      have k1b : (tb.allowN n s).2.tokens ≤ (tb.allowN n s).2.maxTokens := by
        rw [kmax]; exact k1
      have hrb : 0 ≤ (tb.allowN n s).2.refillRate := by rw [krate]; exact hr
      have hm2 : tbTimesMono (tb.allowN n s).2.lastRefillTime rest = true := by
        rw [klast]; exact hmono2
      have ih := tbRun_invariant rest (tb.allowN n s).2 k0 k1b hrb hm2 hargs3
      simpa [tbRun, tbStep] using ih

/-- Helper: conservation for Reset-free sequences: the total number of
admitted tokens over calls in `[lastRefill, T]` is at most
`tokens + rate * (T − lastRefill)`. -/
lemma tbRun_conserve : ∀ (ops : List (ℚ × TBOp)) (tb : TokenBucket) (T : ℚ),
    0 ≤ tb.tokens → tb.tokens ≤ tb.maxTokens → 0 ≤ tb.refillRate →
    tbTimesMono tb.lastRefillTime ops = true → tbArgsNonneg ops = true →
    tbHasReset ops = false → tbTimesLe T ops = true → tb.lastRefillTime ≤ T →
    (tbRun tb ops).2 ≤ tb.tokens + tb.refillRate * (T - tb.lastRefillTime)
  | [], tb, T, h0, _, hr, _, _, _, _, hT => by
    have : 0 ≤ tb.refillRate * (T - tb.lastRefillTime) :=
      mul_nonneg hr (sub_nonneg.mpr hT)
    simp only [tbRun]
    linarith
  | (s, o) :: rest, tb, T, h0, h1, hr, hmono, hargs, hnores, hle, hT => by
    have hmax0 : 0 ≤ tb.maxTokens := le_trans h0 h1
    simp only [tbTimesMono, Bool.and_eq_true, decide_eq_true_eq] at hmono
    obtain ⟨hts, hmono2⟩ := hmono
    simp only [tbArgsNonneg, List.all_cons, Bool.and_eq_true] at hargs
    obtain ⟨harg, hargs2⟩ := hargs
    have hargs3 : tbArgsNonneg rest = true := hargs2
    simp only [tbHasReset, List.any_cons, Bool.or_eq_false_iff] at hnores
    obtain ⟨hnores1, hnores2⟩ := hnores
    have hnores3 : tbHasReset rest = false := hnores2
    simp only [tbTimesLe, List.all_cons, Bool.and_eq_true, decide_eq_true_eq] at hle
    obtain ⟨hsT, hle2⟩ := hle
    have hle3 : tbTimesLe T rest = true := hle2
    cases o with
    | available =>
      have ih := tbRun_conserve rest tb T h0 h1 hr (tbTimesMono_of_le hts hmono2)
        hargs3 hnores3 hle3 hT
      simpa [tbRun, tbStep] using ih
    | reset => simp at hnores1
    | allowN n =>
      have hn : 0 ≤ n := by simpa using harg
      obtain ⟨k0, k1, kmax, krate, klast⟩ := allowN_invariant tb n s h0 h1 hr hts hn
      have k1b : (tb.allowN n s).2.tokens ≤ (tb.allowN n s).2.maxTokens := by
        rw [kmax]; exact k1
      have hrb : 0 ≤ (tb.allowN n s).2.refillRate := by rw [krate]; exact hr
      have hm2 : tbTimesMono (tb.allowN n s).2.lastRefillTime rest = true := by
        rw [klast]; exact hmono2
      have hlastT : (tb.allowN n s).2.lastRefillTime ≤ T := by rw [klast]; exact hsT
      have ih := tbRun_conserve rest (tb.allowN n s).2 T k0 k1b hrb hm2
        hargs3 hnores3 hle3 hlastT
      have hpot := allowN_potential tb n s T
      rw [krate, klast] at ih
      simp only [tbRun, tbStep]
      linarith [hpot, ih]

/-- C7, counterexample: the conservation bound as claimed quantifies over
sequences that may contain Reset.  A full bucket of capacity 1 with zero
refill rate admits one unit request, is Reset back to full, and admits a
second unit request, all inside an interval of length 0 — 2 admitted
requests, while the claimed bound `initial_tokens + rate·Δt = 1`. -/
theorem C7_reset_conservation_counterexample :
    tbArgsNonneg c7Ops = true ∧ tbTimesMono c7Bucket.lastRefillTime c7Ops = true ∧
    tbTimesLe 0 c7Ops = true ∧ (tbRun c7Bucket c7Ops).2 = 2 ∧
    c7Bucket.tokens + c7Bucket.refillRate * (0 - c7Bucket.lastRefillTime) <
      (tbRun c7Bucket c7Ops).2 := by
  refine ⟨rfl, rfl, rfl, ?_, ?_⟩ <;>
    norm_num [c7Ops, c7Bucket, tbRun, tbStep, TokenBucket.allowN, TokenBucket.reset]

/-- C7, amended: for a bucket with `0 ≤ tokens ≤ max` and a nonnegative
refill rate, under monotone call instants and nonnegative request sizes:
(i) the token count stays in `[0, max]` under every sequence of
AllowN/Reset/Available calls; (ii) an AllowN call returns true iff the
refilled count (Available) is at least n, deducting n exactly when it
grants; and (iii) the conservation bound — total admitted ≤
`initial_tokens + rate·Δt` over an interval of length Δt — holds for
every sequence that contains no Reset call (Reset refills the bucket to
capacity mid-interval and can therefore exceed that bound, which is what
the counterexample exploits). -/
theorem C7_token_bucket_amended (tb : TokenBucket) (ops : List (ℚ × TBOp)) (T : ℚ)
    (h0 : 0 ≤ tb.tokens) (h1 : tb.tokens ≤ tb.maxTokens) (hr : 0 ≤ tb.refillRate)
    (hmono : tbTimesMono tb.lastRefillTime ops = true)
    (hargs : tbArgsNonneg ops = true) :
    (0 ≤ (tbRun tb ops).1.tokens ∧
      (tbRun tb ops).1.tokens ≤ (tbRun tb ops).1.maxTokens) ∧
    (∀ n now, ((tb.allowN n now).1 = true ↔ n ≤ tb.available now) ∧
      (tb.allowN n now).2.tokens =
        tb.available now - (if (tb.allowN n now).1 then n else 0)) ∧
    (tbHasReset ops = false → tbTimesLe T ops = true → tb.lastRefillTime ≤ T →
      (tbRun tb ops).2 ≤ tb.tokens + tb.refillRate * (T - tb.lastRefillTime)) := by
  refine ⟨tbRun_invariant ops tb h0 h1 hr hmono hargs, ?_, ?_⟩
  · intro n now
    unfold TokenBucket.allowN TokenBucket.available
    dsimp only
    constructor
    · split <;> simp_all
    · split <;> simp
  · intro hnores hle hT
    exact tbRun_conserve ops tb T h0 h1 hr hmono hargs hnores hle hT

/-- Witness for C7_token_bucket_amended on the concrete bucket and a
single unit request at instant 0. -/
theorem C7_token_bucket_amended_witness :
    (0 ≤ (tbRun c7Bucket [((0 : ℚ), TBOp.allowN 1)]).1.tokens ∧
      (tbRun c7Bucket [((0 : ℚ), TBOp.allowN 1)]).1.tokens ≤
        (tbRun c7Bucket [((0 : ℚ), TBOp.allowN 1)]).1.maxTokens) ∧
    (∀ n now, ((c7Bucket.allowN n now).1 = true ↔ n ≤ c7Bucket.available now) ∧
      (c7Bucket.allowN n now).2.tokens =
        c7Bucket.available now - (if (c7Bucket.allowN n now).1 then n else 0)) ∧
    (tbHasReset [((0 : ℚ), TBOp.allowN 1)] = false →
      tbTimesLe 0 [((0 : ℚ), TBOp.allowN 1)] = true → c7Bucket.lastRefillTime ≤ 0 →
      (tbRun c7Bucket [((0 : ℚ), TBOp.allowN 1)]).2 ≤
        c7Bucket.tokens + c7Bucket.refillRate * (0 - c7Bucket.lastRefillTime)) :=
  C7_token_bucket_amended c7Bucket [((0 : ℚ), TBOp.allowN 1)] 0
    (by norm_num [c7Bucket]) (by norm_num [c7Bucket]) (by norm_num [c7Bucket])
    (by norm_num [c7Bucket, tbTimesMono]) (by norm_num [tbArgsNonneg])

/-- Helper: a Retry run succeeds iff the last executed attempt succeeded;
when it does not succeed, every executed attempt failed. -/
lemma retryAux_attempts (fn : ℕ → Option String) (re : List String)
    (topC waitC : ℕ → Bool) :
    ∀ (r a : ℕ),
      ((retryAux fn re topC waitC r a).outcome = .ok →
        1 ≤ (retryAux fn re topC waitC r a).attemptsExecuted ∧
        fn (a + (retryAux fn re topC waitC r a).attemptsExecuted - 1) = none) ∧
      ((retryAux fn re topC waitC r a).outcome ≠ .ok →
        ∀ k, a ≤ k → k < a + (retryAux fn re topC waitC r a).attemptsExecuted →
          (fn k).isSome)
  | 0, a => by
    refine ⟨fun h => by simp [retryAux] at h, fun _ k hk1 hk2 => ?_⟩
    simp [retryAux] at hk2
    omega
  | r + 1, a => by
    by_cases htop : topC a = true
    · refine ⟨fun h => by simp [retryAux, htop] at h, fun _ k hk1 hk2 => ?_⟩
      simp [retryAux, htop] at hk2
      omega
    · cases hfa : fn a with
      | none =>
        refine ⟨fun _ => ?_, fun h => ?_⟩
        · simp [retryAux, htop, hfa]
        · exfalso
          apply h
          simp [retryAux, htop, hfa]
      | some e =>
        by_cases hlast : r = 0
        · subst hlast
          refine ⟨fun h => by simp [retryAux, htop, hfa] at h, fun _ k hk1 hk2 => ?_⟩
          simp [retryAux, htop, hfa] at hk2
          have : k = a := by omega
          simp [this, hfa]
        · by_cases hretry : isRetryable e re = true
          · by_cases hwait : waitC a = true
            · refine ⟨fun h => by simp [retryAux, htop, hfa, hlast, hretry, hwait] at h,
                fun _ k hk1 hk2 => ?_⟩
              simp [retryAux, htop, hfa, hlast, hretry, hwait] at hk2
              have : k = a := by omega
              simp [this, hfa]
            · have ih := retryAux_attempts fn re topC waitC r (a + 1)
              have hunfold : retryAux fn re topC waitC (r + 1) a =
                  ⟨(retryAux fn re topC waitC r (a + 1)).outcome,
                   (retryAux fn re topC waitC r (a + 1)).attemptsExecuted + 1⟩ := by
                simp [retryAux, htop, hfa, hlast, hretry, hwait]
              rw [hunfold]
              dsimp only
              refine ⟨fun h => ?_, fun h k hk1 hk2 => ?_⟩
              · obtain ⟨h1, h2⟩ := ih.1 h
                refine ⟨by omega, ?_⟩
                have harith : a + ((retryAux fn re topC waitC r (a + 1)).attemptsExecuted + 1)
                    - 1 = a + 1 + (retryAux fn re topC waitC r (a + 1)).attemptsExecuted
                    - 1 := by omega
                rw [harith]
                exact h2
              · rcases eq_or_lt_of_le hk1 with heq | hlt
                · simp [← heq, hfa]
                · exact ih.2 h k (by omega) (by omega)
          · refine ⟨fun h => by simp [retryAux, htop, hfa, hlast, hretry] at h,
              fun _ k hk1 hk2 => ?_⟩
            simp [retryAux, htop, hfa, hlast, hretry] at hk2
            have : k = a := by omega
            simp [this, hfa]

/-- Helper: discard is invoked exactly when the Retry outcome is not
success (Go: `if err != nil`). -/
lemma discard_iff (cfg : RetryConfig) (fn : ℕ → Option String)
    (topC waitC : ℕ → Bool) :
    (RetryWithDiscard cfg fn topC waitC).2 = true ↔
      (Retry cfg fn topC waitC).outcome ≠ .ok := by
  unfold RetryWithDiscard
  cases h : (Retry cfg fn topC waitC).outcome <;>
    simp [retryErrorString, h]

/-- C4, counterexample: with MaxAttempts = 2 and only "A" retryable, a
work function that always fails with "B" stops after a single attempt
(classified non-retryable), yet RetryWithDiscard still invokes the
discard callback — the claim says discard is not invoked on an early
non-retryable stop. -/
theorem C4_nonretryable_discard_counterexample :
    (RetryWithDiscard c4Config (fun _ => some "B") (fun _ => false) (fun _ => false)).1.outcome
        = .nonRetryable "B" ∧
    (RetryWithDiscard c4Config (fun _ => some "B") (fun _ => false)
        (fun _ => false)).1.attemptsExecuted = 1 ∧
    (1 : ℤ) < c4Config.maxAttempts ∧
    (RetryWithDiscard c4Config (fun _ => some "B") (fun _ => false) (fun _ => false)).2
        = true := by
  refine ⟨?_, ?_, by norm_num [c4Config], ?_⟩ <;> rfl

/-- C4, amended: run_with_discard invokes discard(err) iff Retry returned
an error, which happens iff every executed attempt failed (no attempt
succeeded). This covers exhaustion of all max_attempts attempts, but
also the early stops: a failure outside the retryable set, cancellation,
and max_attempts ≤ 0 (zero attempts executed). discard is never invoked
when some attempt succeeds. -/
theorem C4_discard_iff_no_attempt_succeeded (cfg : RetryConfig)
    (fn : ℕ → Option String) (topC waitC : ℕ → Bool) :
    (RetryWithDiscard cfg fn topC waitC).2 = true ↔
      ∀ k, 1 ≤ k → k ≤ (Retry cfg fn topC waitC).attemptsExecuted → (fn k).isSome := by
  rw [discard_iff]
  have h := retryAux_attempts fn cfg.retryableErrors topC waitC cfg.maxAttempts.toNat 1
  have hretry : Retry cfg fn topC waitC =
      retryAux fn cfg.retryableErrors topC waitC cfg.maxAttempts.toNat 1 := rfl
  rw [hretry]
  constructor
  · intro hne k hk1 hk2
    exact h.2 hne k hk1 (by omega)
  · intro hall heq
    obtain ⟨h1, h2⟩ := h.1 heq
    have := hall (retryAux fn cfg.retryableErrors topC waitC
      cfg.maxAttempts.toNat 1).attemptsExecuted h1 le_rfl
    rw [show 1 + (retryAux fn cfg.retryableErrors topC waitC
      cfg.maxAttempts.toNat 1).attemptsExecuted - 1 =
      (retryAux fn cfg.retryableErrors topC waitC
        cfg.maxAttempts.toNat 1).attemptsExecuted from by omega] at h2
    rw [h2] at this
    simp at this

/-- C10: with MaxAttempts ≤ 0 and an uncancelled context, Retry's loop
body never runs: it returns the "all attempts failed" error with a nil
last error without executing the work function, and RetryWithDiscard
therefore invokes the discard callback despite zero attempts. -/
theorem C10_nonpositive_max_attempts (cfg : RetryConfig)
    (fn : ℕ → Option String) (waitC : ℕ → Bool) (hmax : cfg.maxAttempts ≤ 0) :
    Retry cfg fn (fun _ => false) waitC = ⟨.exhausted none, 0⟩ ∧
    retryErrorString cfg.maxAttempts
      (Retry cfg fn (fun _ => false) waitC).outcome ≠ none ∧
    (RetryWithDiscard cfg fn (fun _ => false) waitC).2 = true := by
  have h0 : cfg.maxAttempts.toNat = 0 := Int.toNat_of_nonpos hmax
  have hret : Retry cfg fn (fun _ => false) waitC = ⟨.exhausted none, 0⟩ := by
    unfold Retry
    rw [h0]
    rfl
  refine ⟨hret, ?_, ?_⟩
  · rw [hret]
    simp [retryErrorString]
  · unfold RetryWithDiscard
    rw [hret]
    simp [retryErrorString]

/-- Witness for C10 at MaxAttempts = -1 with a work function that would
succeed if it were ever invoked. -/
theorem C10_nonpositive_max_attempts_witness :
    Retry { maxAttempts := -1, retryableErrors := [] } (fun _ => none)
        (fun _ => false) (fun _ => false) = ⟨.exhausted none, 0⟩ ∧
    retryErrorString (-1)
      (Retry { maxAttempts := -1, retryableErrors := [] } (fun _ => none)
        (fun _ => false) (fun _ => false)).outcome ≠ none ∧
    (RetryWithDiscard { maxAttempts := -1, retryableErrors := [] } (fun _ => none)
        (fun _ => false) (fun _ => false)).2 = true :=
  C10_nonpositive_max_attempts { maxAttempts := -1, retryableErrors := [] }
    (fun _ => none) (fun _ => false) (by norm_num)

/-- Helper: with no retryable-error list, no cancellation, and a work
function failing on every attempt, Retry executes all remaining attempts
and exhausts with the last attempt's error. -/
lemma retryAux_all_fail (fn : ℕ → Option String) :
    ∀ (r a : ℕ), 1 ≤ r → (∀ k, a ≤ k → k < a + r → (fn k).isSome) →
      retryAux fn [] (fun _ => false) (fun _ => false) r a =
        ⟨.exhausted (fn (a + r - 1)), r⟩
  | 0, a => by omega
  | r + 1, a => by
    intro _ hfail
    obtain ⟨e, he⟩ := Option.isSome_iff_exists.mp (hfail a le_rfl (by omega))
    cases r with
    | zero =>
      simp [retryAux, he]
    | succ r2 =>
      have ih := retryAux_all_fail fn (r2 + 1) (a + 1) (by omega)
        (fun k hk1 hk2 => hfail k (by omega) (by omega))
      have hunfold : retryAux fn [] (fun _ => false) (fun _ => false) (r2 + 1 + 1) a =
          ⟨(retryAux fn [] (fun _ => false) (fun _ => false) (r2 + 1) (a + 1)).outcome,
           (retryAux fn [] (fun _ => false) (fun _ => false) (r2 + 1)
             (a + 1)).attemptsExecuted + 1⟩ := by
        simp [retryAux, he, isRetryable]
      rw [hunfold, ih]
      have harith : a + 1 + (r2 + 1) - 1 = a + (r2 + 1 + 1) - 1 := by omega
      rw [harith]

/-- C5: when a handler is registered and fails all max_attempts
consecutive attempts (no cancellation), the dispatcher's discard callback
marks the row failed with a message of the form "Failed after N retries: …"
and, with the DLQ enabled, inserts exactly one dead-letter row for the
message with failure_reason "Max retries exceeded". -/
theorem C5_max_retries_dlq_handoff (handlers : String → Option (ℕ → Option String))
    (msg : OutboxMessage) (fn : ℕ → Option String) (maxRetries : ℤ) (now : ℚ)
    (hh : handlers msg.eventType = some fn) (hmax : 1 ≤ maxRetries)
    (hfail : ∀ k, 1 ≤ k → k ≤ maxRetries.toNat → (fn k).isSome) :
    ∃ s,
      processMessage handlers msg true true maxRetries
          (fun _ => false) (fun _ => false) now =
        (Effect.markProcessing msg.id ::
          ((List.range maxRetries.toNat).map fun i =>
            Effect.handlerInvoke msg.id (i + 1)) ++
          Effect.markFailed msg.id
            ("Failed after " ++ toString maxRetries ++ " retries: " ++ s) ::
          [Effect.dlqInsert (NewDeadLetterMessage msg
            ("Failed after " ++ toString maxRetries ++ " retries: " ++ s)
            "Max retries exceeded" now)], true) ∧
      (processMessage handlers msg true true maxRetries
          (fun _ => false) (fun _ => false) now).1.countP isDlqInsert = 1 ∧
      (processMessage handlers msg true true maxRetries
          (fun _ => false) (fun _ => false) now).1.countP isMarkFailed = 1 := by
  have h1 : 1 ≤ maxRetries.toNat := by omega
  have hret := retryAux_all_fail fn maxRetries.toNat 1 h1
    (fun k hk1 hk2 => hfail k hk1 (by omega))
  obtain ⟨e, he⟩ := Option.isSome_iff_exists.mp (hfail maxRetries.toNat h1 le_rfl)
  have hRetry : Retry { maxAttempts := maxRetries, retryableErrors := [] } fn
      (fun _ => false) (fun _ => false) =
      ⟨.exhausted (some e), maxRetries.toNat⟩ := by
    unfold Retry
    dsimp only
    rw [hret]
    rw [show 1 + maxRetries.toNat - 1 = maxRetries.toNat from by omega, he]
  refine ⟨"all " ++ toString maxRetries ++ " retry attempts failed, last error: " ++ e,
    ?_, ?_, ?_⟩ <;>
    simp [processMessage, hh, hRetry, retryErrorString, List.countP_append,
      List.countP_cons, List.countP_map, Function.comp, isDlqInsert, isMarkFailed]

/-- Witness for C5 on the sample registry: the "order_created" handler
always fails with "boom"; max retries 3. -/
theorem C5_max_retries_dlq_handoff_witness :
    ∃ s,
      processMessage sampleHandlers sampleMessage true true 3
          (fun _ => false) (fun _ => false) 0 =
        (Effect.markProcessing sampleMessage.id ::
          ((List.range (3 : ℤ).toNat).map fun i =>
            Effect.handlerInvoke sampleMessage.id (i + 1)) ++
          Effect.markFailed sampleMessage.id
            ("Failed after " ++ toString (3 : ℤ) ++ " retries: " ++ s) ::
          [Effect.dlqInsert (NewDeadLetterMessage sampleMessage
            ("Failed after " ++ toString (3 : ℤ) ++ " retries: " ++ s)
            "Max retries exceeded" 0)], true) ∧
      (processMessage sampleHandlers sampleMessage true true 3
          (fun _ => false) (fun _ => false) 0).1.countP isDlqInsert = 1 ∧
      (processMessage sampleHandlers sampleMessage true true 3
          (fun _ => false) (fun _ => false) 0).1.countP isMarkFailed = 1 :=
  C5_max_retries_dlq_handoff sampleHandlers sampleMessage (fun _ => some "boom") 3 0
    (by rfl) (by norm_num) (fun k _ _ => rfl)

/-- C6: an outbox message whose event type has no registered handler is
marked failed on its first dispatch without any handler invocation, and
with the DLQ enabled exactly one dead-letter row with failure_reason
"No handler available" is inserted. -/
theorem C6_no_handler_dlq (handlers : String → Option (ℕ → Option String))
    (msg : OutboxMessage) (maxRetries : ℤ) (topC waitC : ℕ → Bool) (now : ℚ)
    (hh : handlers msg.eventType = none) :
    processMessage handlers msg true true maxRetries topC waitC now =
      ([Effect.markProcessing msg.id,
        Effect.markFailed msg.id
          ("no handler registered for event type: " ++ msg.eventType),
        Effect.dlqInsert (NewDeadLetterMessage msg
          ("no handler registered for event type: " ++ msg.eventType)
          "No handler available" now)], true) ∧
    (processMessage handlers msg true true maxRetries topC waitC now).1.countP
      isHandlerInvoke = 0 ∧
    (processMessage handlers msg true true maxRetries topC waitC now).1.countP
      isDlqInsert = 1 := by
  refine ⟨?_, ?_, ?_⟩ <;>
    simp [processMessage, hh, List.countP_cons, isHandlerInvoke, isDlqInsert]

/-- Witness for C6 on the sample registry and the "order_exploded"
message, which has no handler. -/
theorem C6_no_handler_dlq_witness :
    processMessage sampleHandlers sampleUnknownMessage true true 3
        (fun _ => false) (fun _ => false) 0 =
      ([Effect.markProcessing sampleUnknownMessage.id,
        Effect.markFailed sampleUnknownMessage.id
          ("no handler registered for event type: " ++ sampleUnknownMessage.eventType),
        Effect.dlqInsert (NewDeadLetterMessage sampleUnknownMessage
          ("no handler registered for event type: " ++ sampleUnknownMessage.eventType)
          "No handler available" 0)], true) ∧
    (processMessage sampleHandlers sampleUnknownMessage true true 3
        (fun _ => false) (fun _ => false) 0).1.countP isHandlerInvoke = 0 ∧
    (processMessage sampleHandlers sampleUnknownMessage true true 3
        (fun _ => false) (fun _ => false) 0).1.countP isDlqInsert = 1 :=
  C6_no_handler_dlq sampleHandlers sampleUnknownMessage 3
    (fun _ => false) (fun _ => false) 0 (by rfl)

/-- C1, counterexample: the store transitions are unconditional updates
by id, so applied to a terminal row they move it out of its terminal
status — MarkAsProcessing turns a completed outbox row back into
processing, and the admin discard endpoint turns a resolved DLQ row into
discarded. -/
theorem C1_status_regress_counterexample :
    terminalOutboxStatus c1CompletedRow.status = true ∧
    (MarkAsProcessing c1CompletedRow).status = "processing" ∧
    terminalOutboxStatus (MarkAsProcessing c1CompletedRow).status = false ∧
    c1ResolvedRow.status = "resolved" ∧
    (discardDeadLetterHandler (some c1ResolvedRow) "duplicate" 0).1 = 200 ∧
    ((discardDeadLetterHandler (some c1ResolvedRow) "duplicate" 0).2.map
      (fun r => r.status)) = some "discarded" := by
  refine ⟨rfl, rfl, rfl, rfl, rfl, rfl⟩

/-- C1, amended: no-status-regress holds only for the guarded operations:
reset_to_retry changes nothing on a row whose status is terminal (its
WHERE clause requires status = retrying), and the admin retry endpoint
answers 400 and leaves any non-pending row unchanged. All the other
operations — mark_processing, mark_completed, mark_failed on outbox rows;
mark_retrying, mark_resolved, mark_discarded and the admin discard
endpoint on DLQ rows — set the addressed row's status unconditionally,
whatever its current status, and so can move a terminal row out of its
terminal status (as the counterexample shows). -/
theorem C1_no_status_regress_amended :
    (∀ r : DeadLetterMessage, terminalDeadLetterStatus r.status = true →
      ResetToRetry r = r) ∧
    (∀ (r : DeadLetterMessage) (now : ℚ), r.status ≠ "pending" →
      retryDeadLetterHandler (some r) now = (400, some r)) ∧
    (∀ r : OutboxMessage, (MarkAsProcessing r).status = "processing") ∧
    (∀ (r : OutboxMessage) (now : ℚ), (MarkAsCompleted r now).status = "completed") ∧
    (∀ (r : OutboxMessage) (e : String), (MarkAsFailed r e).status = "failed") ∧
    (∀ (r : DeadLetterMessage) (now : ℚ), (MarkAsRetrying r now).status = "retrying") ∧
    (∀ (r : DeadLetterMessage) (now : ℚ), (MarkAsResolved r now).status = "resolved") ∧
    (∀ (r : DeadLetterMessage) (reason : String) (now : ℚ),
      (MarkAsDiscarded r reason now).status = "discarded") ∧
    (∀ (r : DeadLetterMessage) (reason : String) (now : ℚ),
      (discardDeadLetterHandler (some r) reason now).2 =
        some (MarkAsDiscarded r (if reason = "" then "No reason provided" else reason) now)) := by
  refine ⟨?_, ?_, fun _ => rfl, fun _ _ => rfl, fun _ _ => rfl, fun _ _ => rfl,
    fun _ _ => rfl, fun _ _ _ => rfl, fun _ _ _ => rfl⟩
  · intro r h
    simp only [terminalDeadLetterStatus, Bool.or_eq_true, decide_eq_true_eq] at h
    unfold ResetToRetry
    rcases h with h | h <;> simp [h]
  · intro r now h
    simp [retryDeadLetterHandler, h]

/-- Witness for C1_no_status_regress_amended at the resolved DLQ row and
the sample pending outbox row. -/
theorem C1_no_status_regress_amended_witness :
    ResetToRetry c1ResolvedRow = c1ResolvedRow ∧
    retryDeadLetterHandler (some c1ResolvedRow) 0 = (400, some c1ResolvedRow) ∧
    (MarkAsProcessing sampleMessage).status = "processing" :=
  ⟨C1_no_status_regress_amended.1 c1ResolvedRow (by rfl),
   C1_no_status_regress_amended.2.1 c1ResolvedRow 0
     (by simp [c1ResolvedRow, sampleDeadLetter]),
   C1_no_status_regress_amended.2.2.1 sampleMessage⟩

/-- C3: evaluation at the failing input. In the closed state with a
nonzero failure count, Success() leaves the breaker completely unchanged
— it does not zero the failure count (the Go reset branch is dead code,
nested under the half-open test, contrary to its own comment). As a
consequence failures separated by successes still accumulate: a breaker
with threshold 2 and one prior failure opens on the next failure even
though a success came in between. -/
theorem C3_success_in_closed_state_is_noop :
    c3Breaker.state = .closed ∧ c3Breaker.failureCount = 5 ∧
    c3Breaker.success 1 = c3Breaker ∧
    (c3Breaker.success 1).failureCount = 5 ∧
    ((c3SmallBreaker.success 1).failure 2).state = .opened := by
  refine ⟨rfl, rfl, rfl, rfl, rfl⟩

/-- C8: the retry endpoint on an existing row — a pending row is marked
retrying (retry_count incremented, last_retry_at stamped) with a 200; a
non-pending row is left unchanged with a 400; a missing row gets 404. -/
theorem C8_retry_endpoint (r : DeadLetterMessage) (now : ℚ) :
    (r.status = "pending" →
      retryDeadLetterHandler (some r) now =
        (200, some { r with
          status := "retrying"
          retryCount := r.retryCount + 1
          lastRetryAt := some now })) ∧
    (r.status ≠ "pending" →
      retryDeadLetterHandler (some r) now = (400, some r)) ∧
    retryDeadLetterHandler none now = (404, none) := by
  refine ⟨fun h => ?_, fun h => ?_, rfl⟩
  · simp [retryDeadLetterHandler, MarkAsRetrying, h]
  · simp [retryDeadLetterHandler, h]

/-- Witness for C8: the sample pending row is retried with a 200, the
resolved row is refused with a 400 and left unchanged. -/
theorem C8_retry_endpoint_witness :
    retryDeadLetterHandler (some sampleDeadLetter) 3 =
      (200, some { sampleDeadLetter with
        status := "retrying"
        retryCount := sampleDeadLetter.retryCount + 1
        lastRetryAt := some 3 }) ∧
    retryDeadLetterHandler (some c1ResolvedRow) 3 = (400, some c1ResolvedRow) :=
  ⟨(C8_retry_endpoint sampleDeadLetter 3).1 rfl,
   (C8_retry_endpoint c1ResolvedRow 3).2.1 (by decide)⟩

/-- C9: the graceful-degradation middleware — a non-essential request is
rejected 503 with Retry-After 30 and no handler invocation exactly when
Allow() denies; when admitted the handler runs and, for non-essential
paths, Failure is reported iff status ≥ 500 and Success iff status < 400
(4xx reports neither); essential paths never consult the breaker, are
never denied by it, and report nothing. -/
theorem C9_graceful_degradation (cb : CircuitBreaker) (now : ℚ) (path : String)
    (innerStatus : ℕ) :
    (isEssentialEndpoint path = false → (cb.allow now).1 = false →
      gracefulDegradationMiddleware cb now path innerStatus =
        ({ handlerInvoked := false, status := 503, retryAfter := some 30,
           reported := none }, (cb.allow now).2)) ∧
    (isEssentialEndpoint path = false → (cb.allow now).1 = true →
      (gracefulDegradationMiddleware cb now path innerStatus).1.handlerInvoked = true ∧
      (gracefulDegradationMiddleware cb now path innerStatus).1.status = innerStatus ∧
      ((gracefulDegradationMiddleware cb now path innerStatus).1.reported = some false ↔
        500 ≤ innerStatus) ∧
      ((gracefulDegradationMiddleware cb now path innerStatus).1.reported = some true ↔
        innerStatus < 400)) ∧
    (isEssentialEndpoint path = true →
      (gracefulDegradationMiddleware cb now path innerStatus).1.handlerInvoked = true ∧
      (gracefulDegradationMiddleware cb now path innerStatus).1.status = innerStatus ∧
      (gracefulDegradationMiddleware cb now path innerStatus).1.reported = none ∧
      (gracefulDegradationMiddleware cb now path innerStatus).2 = cb) := by
  refine ⟨fun he hd => ?_, fun he ha => ?_, fun he => ?_⟩
  · simp [gracefulDegradationMiddleware, he, hd]
  · by_cases h5 : 500 ≤ innerStatus
    · have h4 : ¬ innerStatus < 400 := by omega
      simp [gracefulDegradationMiddleware, he, ha, h5, h4]
    · by_cases h4 : innerStatus < 400 <;>
        simp [gracefulDegradationMiddleware, he, ha, h5, h4]
  · simp [gracefulDegradationMiddleware, he]

/-- Witness for C9: a closed breaker admits the non-essential orders path
and a 200 response is reported as a success; the essential health path
leaves the breaker untouched. -/
theorem C9_graceful_degradation_witness :
    ((gracefulDegradationMiddleware c3Breaker 1 "/api/v1/orders" 200).1.handlerInvoked
        = true ∧
      (gracefulDegradationMiddleware c3Breaker 1 "/api/v1/orders" 200).1.status = 200 ∧
      ((gracefulDegradationMiddleware c3Breaker 1 "/api/v1/orders" 200).1.reported
          = some false ↔ 500 ≤ 200) ∧
      ((gracefulDegradationMiddleware c3Breaker 1 "/api/v1/orders" 200).1.reported
          = some true ↔ 200 < 400)) ∧
    ((gracefulDegradationMiddleware c3Breaker 1 "/api/v1/health" 200).1.handlerInvoked
        = true ∧
      (gracefulDegradationMiddleware c3Breaker 1 "/api/v1/health" 200).1.status = 200 ∧
      (gracefulDegradationMiddleware c3Breaker 1 "/api/v1/health" 200).1.reported
          = none ∧
      (gracefulDegradationMiddleware c3Breaker 1 "/api/v1/health" 200).2 = c3Breaker) :=
  ⟨(C9_graceful_degradation c3Breaker 1 "/api/v1/orders" 200).2.1 rfl rfl,
   (C9_graceful_degradation c3Breaker 1 "/api/v1/health" 200).2.2 rfl⟩

end FaultTolerantApi
